import Mathlib

/-!
Shallow embedding of `src/netviz/one_page_report.cpp` (the one-page report
generator of tcpflow) and proofs about it.

Conventions of the embedding:
* `struct timeval` fields are integers (`Int`), compared exactly as the C
  comparisons do.
* Unsigned 64-bit counters (`packet_count`, `byte_count`, the
  `transport_counts` values) are modelled as `Nat`; none of the modelled
  arithmetic can reach 2^64, so overflow is immaterial.
* `std::map<uint32_t, uint64_t> transport_counts` is modelled as a key list in
  map iteration order together with a total value function that is `0` off the
  key list for every reachable state (`CountMap`); `operator[]` is `mapTouch`
  (default-inserting access) and `operator[]++` is `mapIncr`.
* The external aggregate stores (`iptree`, `port_histogram`,
  `time_histogram`), whose implementations live outside this translation
  unit, are modelled by their observable traces: the list of `add` / `insert`
  / `increment` calls the report issues to them.
-/

namespace OnePageReport

/-- C `struct timeval`: seconds and microseconds, both signed. -/
structure Timeval where
  tv_sec : Int
  tv_usec : Int
deriving DecidableEq, Repr

/-- Lexicographic order on timestamps: the chronological "earlier or equal". -/
def Timeval.le (a b : Timeval) : Prop :=
  a.tv_sec < b.tv_sec ∨ (a.tv_sec = b.tv_sec ∧ a.tv_usec ≤ b.tv_usec)

instance (a b : Timeval) : Decidable (Timeval.le a b) := by
  unfold Timeval.le; infer_instance

/-- The fields of `be13::packet_info` that `ingest_packet` reads.  The
address fields stand for the byte spans `ip_data + ip4_src_off` etc. that the
code hands to the address trees. -/
structure PacketInfo where
  ts : Timeval
  caplen : Nat
  ether_type : Nat
  is_ip4 : Bool
  is_ip6 : Bool
  is_ip4_tcp : Bool
  is_ip6_tcp : Bool
  ip4_src : List Nat
  ip4_dst : List Nat
  ip6_src : List Nat
  ip6_dst : List Nat
  ip4_sport : Nat
  ip4_dport : Nat
  ip6_sport : Nat
  ip6_dport : Nat
  ip_datalen : Nat
deriving DecidableEq, Repr

/-- Model of `std::map<uint32_t, uint64_t>`: the keys present (in sorted
iteration order for reachable states) and the stored value for each key
(`0` for absent keys, matching value-initialisation by `operator[]`). -/
structure CountMap where
  keys : List Nat
  val : Nat → Nat

/-- The empty map (default-constructed `transport_counts`). -/
def CountMap.empty : CountMap := { keys := [], val := fun _ => 0 }

/-- Sorted insertion of a key if absent; the key list is unchanged when the
key is already present (as `std::map::operator[]` behaves). -/
def insertKey : List Nat → Nat → List Nat
  | [], k => [k]
  | a :: rest, k =>
    if k = a then a :: rest
    else if k < a then k :: a :: rest
    else a :: insertKey rest k

/-- `m[k]++` on a `std::map`: default-insert the key, then increment its
value. -/
def mapIncr (m : CountMap) (k : Nat) : CountMap :=
  { keys := insertKey m.keys k
    val := fun e => if e = k then m.val e + 1 else m.val e }

/-- A bare `m[k]` access on a non-const `std::map`: default-inserts the key
when absent (value `0`), leaving every stored value unchanged. -/
def mapTouch (m : CountMap) (k : Nat) : CountMap :=
  { keys := insertKey m.keys k, val := m.val }

/-- The aggregate state of a `one_page_report` object: the counters plus the
traces of calls made to the external stores. -/
structure Report where
  packet_count : Nat
  byte_count : Nat
  earliest : Timeval
  latest : Timeval
  transport_counts : CountMap
  /-- Trace of `iptree::add(addr, addr_len, count)` calls on `src_tree`. -/
  src_tree : List (List Nat × Nat × Nat)
  /-- Trace of `iptree::add` calls on `dst_tree`. -/
  dst_tree : List (List Nat × Nat × Nat)
  /-- Trace of `time_histogram::insert(ts, port)` calls. -/
  packet_histogram : List (Timeval × Nat)
  /-- Trace of `port_histogram::increment(port, len)` calls on the source
  side. -/
  src_port_histogram : List (Nat × Nat)
  /-- Trace of `port_histogram::increment` calls on the destination side. -/
  dst_port_histogram : List (Nat × Nat)

/-- The freshly constructed report (constructor, lines 42-52): zeroed
counters and timestamps, empty stores.  The port alias and color tables are
not part of any aggregate the claims mention and are omitted. -/
def initReport : Report :=
  { packet_count := 0, byte_count := 0
    earliest := ⟨0, 0⟩, latest := ⟨0, 0⟩
    transport_counts := CountMap.empty
    src_tree := [], dst_tree := []
    packet_histogram := [], src_port_histogram := [], dst_port_histogram := [] }

/-- Lines 119-121: the TCP-only store updates once a TCP packet survived the
IP and TCP checks. -/
def feedTcp (r : Report) (pi : PacketInfo) (tcp_src tcp_dst : Nat) : Report :=
  { r with
    packet_histogram := r.packet_histogram ++ [(pi.ts, tcp_src)]
    src_port_histogram := r.src_port_histogram ++ [(tcp_src, pi.ip_datalen)]
    dst_port_histogram := r.dst_port_histogram ++ [(tcp_dst, pi.ip_datalen)] }

/-- `one_page_report::ingest_packet` (lines 63-122).  The `ip_ver` variable
and the `switch` on it collapse to nesting the TCP check inside each IP
branch: `ip_ver` is 4 exactly on the `is_ip4()` branch and 6 exactly on the
`is_ip6()` branch, and the early `return`s become branch results. -/
def ingest_packet (r : Report) (pi : PacketInfo) : Report :=
  -- lines 65-67: earliest is (re)set whenever its seconds field is zero
  let earliest := if r.earliest.tv_sec = 0 then pi.ts else r.earliest
  -- lines 68-70: latest updates only when sec AND usec are strictly greater
  let latest :=
    if pi.ts.tv_sec > r.latest.tv_sec ∧ pi.ts.tv_usec > r.latest.tv_usec
    then pi.ts else r.latest
  -- lines 72-74: unconditional counter updates
  let r1 : Report :=
    { r with
      earliest := earliest, latest := latest
      packet_count := r.packet_count + 1
      byte_count := r.byte_count + pi.caplen
      transport_counts := mapIncr r.transport_counts pi.ether_type }
  -- lines 79-121
  if pi.is_ip4 then
    let r2 := { r1 with
      src_tree := r1.src_tree ++ [(pi.ip4_src, 4, pi.ip_datalen)]
      dst_tree := r1.dst_tree ++ [(pi.ip4_dst, 4, pi.ip_datalen)] }
    if pi.is_ip4_tcp then feedTcp r2 pi pi.ip4_sport pi.ip4_dport else r2
  else if pi.is_ip6 then
    let r2 := { r1 with
      src_tree := r1.src_tree ++ [(pi.ip6_src, 16, pi.ip_datalen)]
      dst_tree := r1.dst_tree ++ [(pi.ip6_dst, 16, pi.ip_datalen)] }
    if pi.is_ip6_tcp then feedTcp r2 pi pi.ip6_sport pi.ip6_dport else r2
  else r1

/-- Ingesting a whole sequence of records, first to last. -/
def ingestAll (r : Report) (ps : List PacketInfo) : Report :=
  ps.foldl ingest_packet r

/-- The record reaches the TCP feeding code (lines 119-121): it took the
IPv4 branch and passed `is_ip4_tcp()`, or the IPv6 branch and passed
`is_ip6_tcp()`. -/
def tcpOverIP (pi : PacketInfo) : Bool :=
  (pi.is_ip4 && pi.is_ip4_tcp) || (!pi.is_ip4 && pi.is_ip6 && pi.is_ip6_tcp)

/-! Field-by-field characterisation of `ingest_packet`. -/

theorem ingest_latest (r : Report) (pi : PacketInfo) :
    (ingest_packet r pi).latest =
      if pi.ts.tv_sec > r.latest.tv_sec ∧ pi.ts.tv_usec > r.latest.tv_usec
      then pi.ts else r.latest := by
  unfold ingest_packet
  cases h4 : pi.is_ip4 <;> cases h6 : pi.is_ip6 <;>
    cases h4t : pi.is_ip4_tcp <;> cases h6t : pi.is_ip6_tcp <;>
    simp [h4, h6, h4t, h6t, feedTcp]

theorem ingest_earliest (r : Report) (pi : PacketInfo) :
    (ingest_packet r pi).earliest =
      if r.earliest.tv_sec = 0 then pi.ts else r.earliest := by
  unfold ingest_packet
  cases h4 : pi.is_ip4 <;> cases h6 : pi.is_ip6 <;>
    cases h4t : pi.is_ip4_tcp <;> cases h6t : pi.is_ip6_tcp <;>
    simp [h4, h6, h4t, h6t, feedTcp]

theorem ingest_packet_count (r : Report) (pi : PacketInfo) :
    (ingest_packet r pi).packet_count = r.packet_count + 1 := by
  unfold ingest_packet
  cases h4 : pi.is_ip4 <;> cases h6 : pi.is_ip6 <;>
    cases h4t : pi.is_ip4_tcp <;> cases h6t : pi.is_ip6_tcp <;>
    simp [h4, h6, h4t, h6t, feedTcp]

theorem ingest_byte_count (r : Report) (pi : PacketInfo) :
    (ingest_packet r pi).byte_count = r.byte_count + pi.caplen := by
  unfold ingest_packet
  cases h4 : pi.is_ip4 <;> cases h6 : pi.is_ip6 <;>
    cases h4t : pi.is_ip4_tcp <;> cases h6t : pi.is_ip6_tcp <;>
    simp [h4, h6, h4t, h6t, feedTcp]

theorem ingest_transport_counts (r : Report) (pi : PacketInfo) :
    (ingest_packet r pi).transport_counts =
      mapIncr r.transport_counts pi.ether_type := by
  unfold ingest_packet
  cases h4 : pi.is_ip4 <;> cases h6 : pi.is_ip6 <;>
    cases h4t : pi.is_ip4_tcp <;> cases h6t : pi.is_ip6_tcp <;>
    simp [h4, h6, h4t, h6t, feedTcp]

theorem ingest_src_tree (r : Report) (pi : PacketInfo) :
    (ingest_packet r pi).src_tree = r.src_tree ++
      (if pi.is_ip4 then [(pi.ip4_src, 4, pi.ip_datalen)]
       else if pi.is_ip6 then [(pi.ip6_src, 16, pi.ip_datalen)] else []) := by
  unfold ingest_packet
  cases h4 : pi.is_ip4 <;> cases h6 : pi.is_ip6 <;>
    cases h4t : pi.is_ip4_tcp <;> cases h6t : pi.is_ip6_tcp <;>
    simp [h4, h6, h4t, h6t, feedTcp]

theorem ingest_dst_tree (r : Report) (pi : PacketInfo) :
    (ingest_packet r pi).dst_tree = r.dst_tree ++
      (if pi.is_ip4 then [(pi.ip4_dst, 4, pi.ip_datalen)]
       else if pi.is_ip6 then [(pi.ip6_dst, 16, pi.ip_datalen)] else []) := by
  unfold ingest_packet
  cases h4 : pi.is_ip4 <;> cases h6 : pi.is_ip6 <;>
    cases h4t : pi.is_ip4_tcp <;> cases h6t : pi.is_ip6_tcp <;>
    simp [h4, h6, h4t, h6t, feedTcp]

/-- The source port the TCP phase feeds: from the IPv4 header on the IPv4
branch, the IPv6 header otherwise. -/
def tcpSport (pi : PacketInfo) : Nat :=
  if pi.is_ip4 then pi.ip4_sport else pi.ip6_sport

/-- The destination port the TCP phase feeds. -/
def tcpDport (pi : PacketInfo) : Nat :=
  if pi.is_ip4 then pi.ip4_dport else pi.ip6_dport

theorem ingest_packet_histogram (r : Report) (pi : PacketInfo) :
    (ingest_packet r pi).packet_histogram = r.packet_histogram ++
      (if tcpOverIP pi then [(pi.ts, tcpSport pi)] else []) := by
  unfold ingest_packet
  cases h4 : pi.is_ip4 <;> cases h6 : pi.is_ip6 <;>
    cases h4t : pi.is_ip4_tcp <;> cases h6t : pi.is_ip6_tcp <;>
    simp [h4, h6, h4t, h6t, feedTcp, tcpOverIP, tcpSport]

theorem ingest_src_port_histogram (r : Report) (pi : PacketInfo) :
    (ingest_packet r pi).src_port_histogram = r.src_port_histogram ++
      (if tcpOverIP pi then [(tcpSport pi, pi.ip_datalen)] else []) := by
  unfold ingest_packet
  cases h4 : pi.is_ip4 <;> cases h6 : pi.is_ip6 <;>
    cases h4t : pi.is_ip4_tcp <;> cases h6t : pi.is_ip6_tcp <;>
    simp [h4, h6, h4t, h6t, feedTcp, tcpOverIP, tcpSport]

theorem ingest_dst_port_histogram (r : Report) (pi : PacketInfo) :
    (ingest_packet r pi).dst_port_histogram = r.dst_port_histogram ++
      (if tcpOverIP pi then [(tcpDport pi, pi.ip_datalen)] else []) := by
  unfold ingest_packet
  cases h4 : pi.is_ip4 <;> cases h6 : pi.is_ip6 <;>
    cases h4t : pi.is_ip4_tcp <;> cases h6t : pi.is_ip6_tcp <;>
    simp [h4, h6, h4t, h6t, feedTcp, tcpOverIP, tcpDport]

/-! Sample records used to instantiate theorems at concrete inputs. -/

/-- An ordinary IPv4 TCP record. -/
def pktIp4Tcp : PacketInfo :=
  { ts := ⟨10, 500⟩, caplen := 60, ether_type := 2048
    is_ip4 := true, is_ip6 := false, is_ip4_tcp := true, is_ip6_tcp := false
    ip4_src := [10, 0, 0, 1], ip4_dst := [10, 0, 0, 2]
    ip6_src := [], ip6_dst := []
    ip4_sport := 80, ip4_dport := 4444, ip6_sport := 0, ip6_dport := 0
    ip_datalen := 40 }

/-- An ARP record: neither IPv4 nor IPv6. -/
def pktArp : PacketInfo :=
  { ts := ⟨20, 999⟩, caplen := 42, ether_type := 2054
    is_ip4 := false, is_ip6 := false, is_ip4_tcp := false, is_ip6_tcp := false
    ip4_src := [], ip4_dst := [], ip6_src := [], ip6_dst := []
    ip4_sport := 0, ip4_dport := 0, ip6_sport := 0, ip6_dport := 0
    ip_datalen := 0 }

/-- An IPv6 UDP record: IP but not TCP. -/
def pktIp6Udp : PacketInfo :=
  { ts := ⟨30, 1⟩, caplen := 90, ether_type := 34525
    is_ip4 := false, is_ip6 := true, is_ip4_tcp := false, is_ip6_tcp := false
    ip4_src := [], ip4_dst := []
    ip6_src := List.replicate 15 0 ++ [1], ip6_dst := List.replicate 15 0 ++ [2]
    ip4_sport := 0, ip4_dport := 0, ip6_sport := 53, ip6_dport := 5353
    ip_datalen := 30 }

/-- A record whose timestamp has seconds 5 and microseconds 0. -/
def pktSecOnly : PacketInfo :=
  { pktIp4Tcp with ts := ⟨5, 0⟩ }

/-- A record at the same second as `pktIp4Tcp` but an earlier microsecond. -/
def pktSameSecEarlierUsec : PacketInfo :=
  { pktIp4Tcp with ts := ⟨10, 200⟩ }

/-- C1: `ingest_packet` updates `latest` to the timestamp of the record exactly
when both the seconds field and the microseconds field are strictly greater
than the current `latest`; consequently, ingesting a second record whose
seconds equal `latest.tv_sec` while `latest.tv_usec` exceeds its `tv_usec`
leaves `latest` unchanged. -/
theorem C1_latest_update_rule :
    (∀ (s : Report) (pi : PacketInfo),
        (ingest_packet s pi).latest =
          if pi.ts.tv_sec > s.latest.tv_sec ∧ pi.ts.tv_usec > s.latest.tv_usec
          then pi.ts else s.latest) ∧
    (∀ (r : Report) (p q : PacketInfo),
        q.ts.tv_sec = (ingest_packet r p).latest.tv_sec →
        (ingest_packet r p).latest.tv_usec > q.ts.tv_usec →
        (ingest_packet (ingest_packet r p) q).latest =
          (ingest_packet r p).latest) := by
  refine ⟨ingest_latest, fun r p q hsec husec => ?_⟩
  rw [ingest_latest]
  have : ¬(q.ts.tv_sec > (ingest_packet r p).latest.tv_sec ∧
      q.ts.tv_usec > (ingest_packet r p).latest.tv_usec) := by
    rintro ⟨hgt, -⟩
    omega
  simp [this]

/-- Witness for C1: a pair of concrete records with equal seconds and a
smaller second microsecond leaves `latest` unchanged. -/
theorem C1_latest_update_rule_witness :
    (ingest_packet (ingest_packet initReport pktIp4Tcp) pktSameSecEarlierUsec).latest =
      (ingest_packet initReport pktIp4Tcp).latest :=
  C1_latest_update_rule.2 initReport pktIp4Tcp pktSameSecEarlierUsec
    (by decide) (by decide)

/-- C2 (violated by the code): ingesting the single record `pktSecOnly`
(timestamp seconds 5, microseconds 0) sets `earliest` to `(5, 0)` but leaves
`latest` at `(0, 0)` because the microsecond comparison `0 > 0` fails, so
`earliest ≤ latest` does not hold after a nonempty ingestion sequence. -/
theorem C2_earliest_le_latest_violation :
    (ingestAll initReport [pktSecOnly]).earliest = ⟨5, 0⟩ ∧
    (ingestAll initReport [pktSecOnly]).latest = ⟨0, 0⟩ ∧
    ¬ Timeval.le (ingestAll initReport [pktSecOnly]).earliest
        (ingestAll initReport [pktSecOnly]).latest := by
  refine ⟨by decide, by decide, ?_⟩
  rintro (h | ⟨h, -⟩) <;> revert h <;> decide

/-! Accumulated counters over a whole ingestion sequence. -/

theorem ingestAll_packet_count (ps : List PacketInfo) :
    ∀ r : Report, (ingestAll r ps).packet_count = r.packet_count + ps.length := by
  induction ps with
  | nil => intro r; simp [ingestAll]
  | cons p ps ih =>
    intro r
    show (ingestAll (ingest_packet r p) ps).packet_count = _
    rw [ih, ingest_packet_count]
    simp; omega

theorem ingestAll_byte_count (ps : List PacketInfo) :
    ∀ r : Report,
      (ingestAll r ps).byte_count = r.byte_count + (ps.map PacketInfo.caplen).sum := by
  induction ps with
  | nil => intro r; simp [ingestAll]
  | cons p ps ih =>
    intro r
    show (ingestAll (ingest_packet r p) ps).byte_count = _
    rw [ih, ingest_byte_count]
    simp; omega

theorem ingestAll_transport_val (ps : List PacketInfo) (e : Nat) :
    ∀ r : Report,
      (ingestAll r ps).transport_counts.val e =
        r.transport_counts.val e +
          (ps.filter (fun p => p.ether_type = e)).length := by
  induction ps with
  | nil => intro r; simp [ingestAll]
  | cons p ps ih =>
    intro r
    show (ingestAll (ingest_packet r p) ps).transport_counts.val e = _
    rw [ih, ingest_transport_counts]
    by_cases hp : p.ether_type = e
    · simp [mapIncr, hp, List.filter]
      omega
    · have : ¬ e = p.ether_type := fun h => hp h.symm
      simp [mapIncr, this, List.filter, hp]

/-- C4: after ingesting a sequence of records starting from the fresh
report, `packet_count` is the number of records, `byte_count` is the sum of
their capture lengths, and each `transport_counts` entry is the number of
records having that ethertype — counted for every record, IP or not,
TCP or not. -/
theorem C4_counters_and_transport (ps : List PacketInfo) :
    (ingestAll initReport ps).packet_count = ps.length ∧
    (ingestAll initReport ps).byte_count = (ps.map PacketInfo.caplen).sum ∧
    ∀ e : Nat,
      (ingestAll initReport ps).transport_counts.val e =
        (ps.filter (fun p => p.ether_type = e)).length := by
  refine ⟨?_, ?_, fun e => ?_⟩
  · rw [ingestAll_packet_count]
    show 0 + ps.length = ps.length
    omega
  · rw [ingestAll_byte_count]
    show 0 + (ps.map PacketInfo.caplen).sum = (ps.map PacketInfo.caplen).sum
    omega
  · rw [ingestAll_transport_val]
    show 0 + _ = _
    omega

/-- Appending one call to a store trace always changes it. -/
theorem append_singleton_ne {α : Type} (l : List α) (x : α) : l ++ [x] ≠ l := by
  intro h
  have hlen := congrArg List.length h
  simp at hlen

/-- C5: records that are neither IPv4 nor IPv6 leave every store untouched
(only the always-updated counters change); IPv4 and IPv6 records feed both
address trees with the address bytes and the payload length regardless of
the transport; and the two port histograms and the time histogram change
exactly when the record is TCP over IP. -/
theorem C5_store_frame (r : Report) (p : PacketInfo) :
    (p.is_ip4 = false → p.is_ip6 = false →
      (ingest_packet r p).src_tree = r.src_tree ∧
      (ingest_packet r p).dst_tree = r.dst_tree ∧
      (ingest_packet r p).packet_histogram = r.packet_histogram ∧
      (ingest_packet r p).src_port_histogram = r.src_port_histogram ∧
      (ingest_packet r p).dst_port_histogram = r.dst_port_histogram ∧
      (ingest_packet r p).packet_count = r.packet_count + 1 ∧
      (ingest_packet r p).byte_count = r.byte_count + p.caplen ∧
      (ingest_packet r p).transport_counts = mapIncr r.transport_counts p.ether_type) ∧
    (p.is_ip4 = true →
      (ingest_packet r p).src_tree = r.src_tree ++ [(p.ip4_src, 4, p.ip_datalen)] ∧
      (ingest_packet r p).dst_tree = r.dst_tree ++ [(p.ip4_dst, 4, p.ip_datalen)]) ∧
    (p.is_ip4 = false → p.is_ip6 = true →
      (ingest_packet r p).src_tree = r.src_tree ++ [(p.ip6_src, 16, p.ip_datalen)] ∧
      (ingest_packet r p).dst_tree = r.dst_tree ++ [(p.ip6_dst, 16, p.ip_datalen)]) ∧
    ((ingest_packet r p).src_port_histogram ≠ r.src_port_histogram ↔ tcpOverIP p = true) ∧
    ((ingest_packet r p).dst_port_histogram ≠ r.dst_port_histogram ↔ tcpOverIP p = true) ∧
    ((ingest_packet r p).packet_histogram ≠ r.packet_histogram ↔ tcpOverIP p = true) := by
  refine ⟨fun h4 h6 => ?_, fun h4 => ?_, fun h4 h6 => ?_, ?_, ?_, ?_⟩
  · rw [ingest_src_tree, ingest_dst_tree, ingest_packet_histogram,
      ingest_src_port_histogram, ingest_dst_port_histogram,
      ingest_packet_count, ingest_byte_count, ingest_transport_counts]
    simp [h4, h6, tcpOverIP]
  · rw [ingest_src_tree, ingest_dst_tree]
    simp [h4]
  · rw [ingest_src_tree, ingest_dst_tree]
    simp [h4, h6]
  · rw [ingest_src_port_histogram]
    by_cases h : tcpOverIP p = true <;>
      simp [h, append_singleton_ne]
  · rw [ingest_dst_port_histogram]
    by_cases h : tcpOverIP p = true <;>
      simp [h, append_singleton_ne]
  · rw [ingest_packet_histogram]
    by_cases h : tcpOverIP p = true <;>
      simp [h, append_singleton_ne]

/-- Witness for C5: the frame conditions evaluated on an ARP record, an
IPv4 TCP record, and an IPv6 UDP record. -/
theorem C5_store_frame_witness :
    ((ingest_packet initReport pktArp).src_port_histogram =
        initReport.src_port_histogram) ∧
    ((ingest_packet initReport pktIp4Tcp).src_tree =
        initReport.src_tree ++ [([10, 0, 0, 1], 4, 40)]) ∧
    ((ingest_packet initReport pktIp6Udp).dst_tree =
        initReport.dst_tree ++ [(List.replicate 15 0 ++ [2], 16, 30)]) :=
  ⟨((C5_store_frame initReport pktArp).1 (by decide) (by decide)).2.2.2.1,
   ((C5_store_frame initReport pktIp4Tcp).2.1 (by decide)).1,
   ((C5_store_frame initReport pktIp6Udp).2.2.1 (by decide) (by decide)).2⟩

/-! The header transport breakdown (lines 256-275) and the render pass
effect on the aggregates. -/

/-- Ethertype constant 0x0800. -/
def ETHERTYPE_IP : Nat := 2048

/-- Ethertype constant 0x86DD. -/
def ETHERTYPE_IPV6 : Nat := 34525

/-- Ethertype constant 0x0806. -/
def ETHERTYPE_ARP : Nat := 2054

/-- Lines 256-261: `transport_total` is the sum of the stored values over
all map entries, accumulated by iterating the map. -/
def transport_total (m : CountMap) : Nat := (m.keys.map m.val).sum

/-- Lines 263-270: the percentage line reads `transport_counts[e]` for the
three well-known ethertypes; with a non-const map reference, each access
default-inserts an absent key with value 0.  Each of the three keys is
accessed twice (once for its own percentage, once inside the Other term). -/
def render_header_counts (m : CountMap) : CountMap :=
  let m1 := mapTouch m ETHERTYPE_IP
  let m2 := mapTouch m1 ETHERTYPE_IPV6
  let m3 := mapTouch m2 ETHERTYPE_ARP
  let m4 := mapTouch m3 ETHERTYPE_IP
  let m5 := mapTouch m4 ETHERTYPE_IPV6
  mapTouch m5 ETHERTYPE_ARP

/-- The four real-valued percentages printed by the transport line, divided
by `transport_total` with no zero-divisor guard (lines 263-270). -/
def headerTransportPercentages (r : Report) : ℚ × ℚ × ℚ × ℚ :=
  let total : ℚ := transport_total r.transport_counts
  ((r.transport_counts.val ETHERTYPE_IP : ℚ) / total * 100,
   (r.transport_counts.val ETHERTYPE_IPV6 : ℚ) / total * 100,
   (r.transport_counts.val ETHERTYPE_ARP : ℚ) / total * 100,
   (1 - ((r.transport_counts.val ETHERTYPE_IP +
          r.transport_counts.val ETHERTYPE_IPV6 +
          r.transport_counts.val ETHERTYPE_ARP : Nat) : ℚ) / total) * 100)

/-- Outcome of a `render` call as seen by the caller. -/
structure RenderResult where
  errorSurfaced : Bool
  completed : Bool
deriving DecidableEq, Repr

/-- `one_page_report::render` (lines 124-203), restricted to its effect on
the aggregate state and on the caller.  `createOk` says whether creating the
output artifact (the PDF surface, line 130) succeeded; the code never
inspects the surface status, takes no early exit, and returns `void`, so the
result is the same whether creation succeeded or failed.  The only aggregate
the pass touches is `transport_counts`, through the six `operator` accesses
of the header breakdown; every other section only reads the stores. -/
def render (r : Report) (createOk : Bool) : Report × RenderResult :=
  ({ r with transport_counts := render_header_counts r.transport_counts },
   { errorSurfaced := false, completed := true })

/-! Lemmas about `insertKey`, `mapIncr`, `mapTouch` and `transport_total`. -/

theorem mem_insertKey (k : Nat) : ∀ (l : List Nat) (e : Nat),
    e ∈ insertKey l k ↔ e ∈ l ∨ e = k := by
  intro l
  induction l with
  | nil => intro e; simp [insertKey]
  | cons a rest ih =>
    intro e
    by_cases hk : k = a
    · simp [insertKey, hk]
      tauto
    · by_cases hlt : k < a
      · simp [insertKey, hk, hlt]
        tauto
      · simp [insertKey, hk, hlt, ih]
        tauto

theorem sum_map_insertKey (k : Nat) (f : Nat → Nat) : ∀ l : List Nat,
    (l.map f).sum ≤ ((insertKey l k).map f).sum := by
  intro l
  induction l with
  | nil => simp [insertKey]
  | cons a rest ih =>
    by_cases hk : k = a
    · simp [insertKey, hk]
    · by_cases hlt : k < a
      · simp [insertKey, hk, hlt]
      · simp [insertKey, hk, hlt]
        omega

theorem val_le_transport_total (m : CountMap) (e : Nat) (he : e ∈ m.keys) :
    m.val e ≤ transport_total m := by
  have : m.val e ∈ m.keys.map m.val := List.mem_map_of_mem m.val he
  exact List.single_le_sum (fun x _ => Nat.zero_le x) _ this

theorem transport_total_mono_incr (m : CountMap) (k : Nat) :
    transport_total m ≤ transport_total (mapIncr m k) := by
  unfold transport_total mapIncr
  calc (m.keys.map m.val).sum
      ≤ (m.keys.map fun e => if e = k then m.val e + 1 else m.val e).sum := by
        apply List.sum_le_sum
        intro i _
        by_cases h : i = k <;> simp [h]
    _ ≤ ((insertKey m.keys k).map fun e => if e = k then m.val e + 1 else m.val e).sum :=
        sum_map_insertKey k _ m.keys

theorem one_le_transport_total_incr (m : CountMap) (k : Nat) :
    1 ≤ transport_total (mapIncr m k) := by
  have hk : k ∈ (mapIncr m k).keys := by
    show k ∈ insertKey m.keys k
    rw [mem_insertKey]
    right; rfl
  have := val_le_transport_total (mapIncr m k) k hk
  have hv : (mapIncr m k).val k = m.val k + 1 := by simp [mapIncr]
  omega

theorem transport_total_mono_ingest (r : Report) (p : PacketInfo) :
    transport_total r.transport_counts ≤
      transport_total (ingest_packet r p).transport_counts := by
  rw [ingest_transport_counts]
  exact transport_total_mono_incr _ _

theorem one_le_transport_total_ingestAll (ps : List PacketInfo) :
    ∀ r : Report, 1 ≤ transport_total r.transport_counts →
      1 ≤ transport_total (ingestAll r ps).transport_counts := by
  induction ps with
  | nil => intro r h; exact h
  | cons p ps ih =>
    intro r h
    show 1 ≤ transport_total (ingestAll (ingest_packet r p) ps).transport_counts
    exact ih _ (le_trans h (transport_total_mono_ingest r p))

/-- C10: every `ingest_packet` call increments some `transport_counts`
entry, so after any nonempty ingestion sequence the `transport_total`
denominator of the header percentages is strictly positive and the
zero-divisor case of the unguarded divisions cannot occur. -/
theorem C10_transport_total_positive (ps : List PacketInfo) (h : ps ≠ []) :
    0 < transport_total (ingestAll initReport ps).transport_counts := by
  match ps, h with
  | p :: ps, _ =>
    show 0 < transport_total (ingestAll (ingest_packet initReport p) ps).transport_counts
    have h1 : 1 ≤ transport_total (ingest_packet initReport p).transport_counts := by
      rw [ingest_transport_counts]
      exact one_le_transport_total_incr _ _
    exact one_le_transport_total_ingestAll ps _ h1

/-- Witness for C10: after ingesting one ARP record the transport total is
positive. -/
theorem C10_transport_total_positive_witness :
    0 < transport_total (ingestAll initReport [pktArp]).transport_counts :=
  C10_transport_total_positive [pktArp] (by decide)

/-- C8 (violated by the code): `render` never inspects the status of the
created output artifact — whether creation succeeds or fails, the pass runs
to completion and the caller receives no error indication. -/
theorem C8_no_error_surfaced :
    (render initReport false).2.errorSurfaced = false ∧
    (render initReport false).2.completed = true ∧
    (render initReport true).2 = (render initReport false).2 := by
  exact ⟨rfl, rfl, rfl⟩

/-- C9 (violated by the code): rendering a fresh report default-inserts the
three well-known ethertype keys into `transport_counts` via the non-const
map accesses of the header breakdown, so the aggregate state is not
identical before and after the call. -/
theorem C9_render_not_frozen :
    (render initReport true).1.transport_counts.keys =
      [ETHERTYPE_IP, ETHERTYPE_ARP, ETHERTYPE_IPV6] ∧
    initReport.transport_counts.keys = [] ∧
    (render initReport true).1 ≠ initReport := by
  refine ⟨by decide, rfl, fun h => ?_⟩
  have hk : (render initReport true).1.transport_counts.keys =
      initReport.transport_counts.keys := congrArg (fun x => x.transport_counts.keys) h
  have h1 : (render initReport true).1.transport_counts.keys =
      [2048, 2054, 34525] := by decide
  have h2 : initReport.transport_counts.keys = [] := rfl
  rw [h1, h2] at hk
  exact absurd hk (by decide)

/-- C9 amended: a render pass leaves every counter, timestamp, store trace
and every stored transport count unchanged; its only effect on the
aggregates is that the header breakdown may add the keys `ETHERTYPE_IP`,
`ETHERTYPE_IPV6` and `ETHERTYPE_ARP` (with value 0) to the key set of
`transport_counts`. -/
theorem C9_render_aggregate_effect (r : Report) (ok : Bool) :
    (render r ok).1.packet_count = r.packet_count ∧
    (render r ok).1.byte_count = r.byte_count ∧
    (render r ok).1.earliest = r.earliest ∧
    (render r ok).1.latest = r.latest ∧
    (render r ok).1.src_tree = r.src_tree ∧
    (render r ok).1.dst_tree = r.dst_tree ∧
    (render r ok).1.packet_histogram = r.packet_histogram ∧
    (render r ok).1.src_port_histogram = r.src_port_histogram ∧
    (render r ok).1.dst_port_histogram = r.dst_port_histogram ∧
    (∀ e, (render r ok).1.transport_counts.val e = r.transport_counts.val e) ∧
    (∀ e, e ∈ (render r ok).1.transport_counts.keys ↔
        e ∈ r.transport_counts.keys ∨
          e = ETHERTYPE_IP ∨ e = ETHERTYPE_IPV6 ∨ e = ETHERTYPE_ARP) := by
  refine ⟨rfl, rfl, rfl, rfl, rfl, rfl, rfl, rfl, rfl, fun e => rfl, fun e => ?_⟩
  show e ∈ (render_header_counts r.transport_counts).keys ↔ _
  simp only [render_header_counts, mapTouch, mem_insertKey]
  tauto

/-! Paired-chart textual summaries (lines 326-381 for the address pair,
lines 383-440 for the port pair). -/

/-- Modelled from the spec: the ranked aggregate store contract of section
4.2, which is what `address_histogram` and `port_histogram` (implemented
outside this translation unit) provide to the render code.  `entries` lists
the (key, count) pairs in descending-count rank order, so `at(rank)` is
`entries.get? rank` and `size()` is `entries.length`; `total` is the value
the store reports as `ingest_count()` — the sum of all weights ever added. -/
structure RankedStore (α : Type) where
  entries : List (α × Nat)
  total : Nat
deriving DecidableEq, Repr

/-- One emitted rank line, printed as
`"<rank+1>) <key> - <scaled count>B (<percentage>%)"`. -/
structure StatLine (α : Type) where
  rank : Nat
  key : α
  count : Nat
  percentage : Nat
deriving DecidableEq, Repr

/-- The percentage of a rank line:
`(uint8_t)(((double) count / (double) total) * 100.0)`, i.e. the real
quotient scaled by 100 and truncated toward zero (lines 351, 364, 410,
423; the values that arise in the claims fit in eight bits, so the final
narrowing cast is value-preserving). -/
def statPercentage (count total : Nat) : Nat := count * 100 / total

/-- One side of the stat-line loop (lines 344-377 or 403-436): for each
rank below `n`, a line is emitted when the store has an entry at that rank
with a strictly positive count; the percentage divides by the `total`
argument handed in by the caller. -/
def sideStatLines {α : Type} (data : RankedStore α) (total n : Nat) :
    List (StatLine α) :=
  (List.range n).filterMap fun ii =>
    (data.entries.get? ii).bind fun kc =>
      if 0 < kc.2 then some ⟨ii, kc.1, kc.2, statPercentage kc.2 total⟩
      else none

/-- The textual summaries of the port pair chart (lines 383-440): line 388
reads `total_bytes` from the LEFT store only, and both sides use it as
their percentage divisor. -/
def portPairStatLines (left right : RankedStore Nat) (topN : Nat) :
    List (StatLine Nat) × List (StatLine Nat) :=
  let total_bytes := left.total
  (sideStatLines left total_bytes topN, sideStatLines right total_bytes topN)

/-- The textual summaries of the address pair chart (lines 326-381): line
331 reads `total_datagrams` from the LEFT store only, and both sides use it
as their percentage divisor. -/
def addressPairStatLines (left right : RankedStore (List Nat)) (topN : Nat) :
    List (StatLine (List Nat)) × List (StatLine (List Nat)) :=
  let total_datagrams := left.total
  (sideStatLines left total_datagrams topN, sideStatLines right total_datagrams topN)

theorem sideStatLines_percentage {α : Type} (data : RankedStore α)
    (total n : Nat) (s : StatLine α) (hs : s ∈ sideStatLines data total n) :
    s.percentage = s.count * 100 / total := by
  simp only [sideStatLines, List.mem_filterMap] at hs
  obtain ⟨ii, -, h⟩ := hs
  rw [Option.bind_eq_some] at h
  obtain ⟨kc, -, h⟩ := h
  split at h
  · cases h
    rfl
  · cases h

/-- C3 (violated by the code): the right-hand side of the port pair chart
computes its percentages against the total of the LEFT store, not its own.
With a left store of total 100 and a right store holding the single entry
(port 80, count 50) and total 50, the claim predicts the right rank-0 line
to report `50 * 100 / 50 = 100` percent, but the emitted line carries 50. -/
theorem C3_right_side_total_counterexample :
    (portPairStatLines ⟨[(1, 100)], 100⟩ ⟨[(80, 50)], 50⟩ 3).2 =
      [⟨0, 80, 50, 50⟩] ∧
    statPercentage 50 (⟨[(80, 50)], 50⟩ : RankedStore Nat).total = 100 ∧
    ¬ (∀ s ∈ (portPairStatLines ⟨[(1, 100)], 100⟩ ⟨[(80, 50)], 50⟩ 3).2,
          s.percentage =
            statPercentage s.count (⟨[(80, 50)], 50⟩ : RankedStore Nat).total) := by
  refine ⟨by decide, by decide, fun h => ?_⟩
  have := h ⟨0, 80, 50, 50⟩ (by decide)
  exact absurd this (by decide)

/-- C3 amended: in both paired-chart textual summaries, each rank line of
EITHER side reports `count * 100 / left_total` truncated to an integer,
where `left_total` is the total of the left-hand (source) store; for the
port store with entries (80, 50), (22, 30), (8080, 10) and total 90 the
rank-0 line reports port 80 with percentage 55. -/
theorem C3_pair_percentages :
    (∀ (L R : RankedStore Nat) (n : Nat) (s : StatLine Nat),
        s ∈ (portPairStatLines L R n).1 → s.percentage = s.count * 100 / L.total) ∧
    (∀ (L R : RankedStore Nat) (n : Nat) (s : StatLine Nat),
        s ∈ (portPairStatLines L R n).2 → s.percentage = s.count * 100 / L.total) ∧
    (∀ (L R : RankedStore (List Nat)) (n : Nat) (s : StatLine (List Nat)),
        s ∈ (addressPairStatLines L R n).1 → s.percentage = s.count * 100 / L.total) ∧
    (∀ (L R : RankedStore (List Nat)) (n : Nat) (s : StatLine (List Nat)),
        s ∈ (addressPairStatLines L R n).2 → s.percentage = s.count * 100 / L.total) ∧
    (portPairStatLines ⟨[(80, 50), (22, 30), (8080, 10)], 90⟩ ⟨[], 0⟩ 3).1.head? =
      some ⟨0, 80, 50, 55⟩ := by
  refine ⟨?_, ?_, ?_, ?_, by decide⟩ <;>
    exact fun L R n s hs => sideStatLines_percentage _ _ _ _ hs

/-- Witness for C3 amended: the rank-0 line of the concrete port store from
the claim carries percentage `50 * 100 / 90 = 55`. -/
theorem C3_pair_percentages_witness :
    (⟨0, 80, 50, 55⟩ : StatLine Nat).percentage =
      (⟨0, 80, 50, 55⟩ : StatLine Nat).count * 100 /
        (⟨[(80, 50), (22, 30), (8080, 10)], 90⟩ : RankedStore Nat).total :=
  C3_pair_percentages.1 ⟨[(80, 50), (22, 30), (8080, 10)], 90⟩ ⟨[], 0⟩ 3
    ⟨0, 80, 50, 55⟩ (by decide)

/-! Human-scaled byte formatting (`pretty_byte_total`, lines 205-214, and
`build_size_suffixes`, lines 443-454). -/

/-- Lines 443-454: the decimal suffix table. -/
def build_size_suffixes : List String := ["", "K", "M", "G", "T", "P", "E"]

/-- Line 28: the static suffix table is built once. -/
def size_suffixes : List String := build_size_suffixes

/-- Line 208 and 209-211: the scale index
`(uint64_t)(log(byte_count) / log(1000))`, reset to 0 when it is not a
valid suffix index.  For positive `n` the double computation is the floor
of the base-1000 logarithm, `Nat.log 1000 n`; for `n = 0` the C `log`
returns negative infinity and the cast to `uint64_t` yields a huge value
(`2 ^ 63` observed on x86-64) — any value at least the table length makes
the range check fire, so the branch below is faithful to the observed
"0 maps to index 0" behavior. -/
def size_log_1000 (n : Nat) : Nat :=
  let raw := if n = 0 then 2 ^ 63 else Nat.log 1000 n
  if size_suffixes.length ≤ raw then 0 else raw

/-- The `"%.2f"` rendering of `num / den` for `den > 0`: the value in
hundredths rounded to nearest (the inputs exercised below are exactly
representable and never half-way, so rounding direction at ties is moot),
printed as integer part, a dot, and a two-digit fraction. -/
def formatFixed2 (num den : Nat) : String :=
  let hundredths := (num * 200 + den) / (den * 2)
  let ip := hundredths / 100
  let fp := hundredths % 100
  toString ip ++ "." ++ (if fp < 10 then "0" ++ toString fp else toString fp)

/-- Lines 205-214: scale `byte_count` by `1000 ^ index`, print with two
fractional digits, a space, and the suffix.  Callers append a trailing
`B` (e.g. the `"(%sB)"` of line 250). -/
def pretty_byte_total (byte_count : Nat) : String :=
  let size_log := size_log_1000 byte_count
  formatFixed2 byte_count (1000 ^ size_log) ++ " " ++
    size_suffixes.getD size_log ""

/-- C6: for every positive count below `1000 ^ 7` (which covers the whole
`uint64_t` range) the scale index is the floor of the base-1000 logarithm
and already lies in the valid suffix index range; the concrete outputs with
the caller-appended `B` are `"1.50 KB"`, `"2.50 MB"`, and for the degenerate
input 0 the defined string `"0.00 B"`. -/
theorem C6_pretty_byte_total :
    (∀ n : Nat, 1 ≤ n → n < 1000 ^ size_suffixes.length →
        size_log_1000 n = Nat.log 1000 n ∧
        Nat.log 1000 n < size_suffixes.length) ∧
    pretty_byte_total 1500 ++ "B" = "1.50 KB" ∧
    pretty_byte_total 2500000 ++ "B" = "2.50 MB" ∧
    pretty_byte_total 0 ++ "B" = "0.00 B" := by
  refine ⟨fun n h1 hlt => ?_, ?_, ?_, ?_⟩
  · have hne : n ≠ 0 := by omega
    have hlog : Nat.log 1000 n < size_suffixes.length :=
      Nat.log_lt_of_lt_pow hne hlt
    refine ⟨?_, hlog⟩
    simp only [size_log_1000]
    rw [if_neg hne, if_neg (not_le.mpr hlog)]
  · have hlog : Nat.log 1000 1500 = 1 :=
      Nat.log_eq_of_pow_le_of_lt_pow (by norm_num) (by norm_num)
    have hidx : size_log_1000 1500 = 1 := by
      simp only [size_log_1000]
      norm_num [hlog, size_suffixes, build_size_suffixes]
    unfold pretty_byte_total
    rw [hidx]
    rfl
  · have hlog : Nat.log 1000 2500000 = 2 :=
      Nat.log_eq_of_pow_le_of_lt_pow (by norm_num) (by norm_num)
    have hidx : size_log_1000 2500000 = 2 := by
      simp only [size_log_1000]
      norm_num [hlog, size_suffixes, build_size_suffixes]
    unfold pretty_byte_total
    rw [hidx]
    rfl
  · have hidx : size_log_1000 0 = 0 := by
      simp only [size_log_1000]
      norm_num [size_suffixes, build_size_suffixes]
    unfold pretty_byte_total
    rw [hidx]
    rfl

/-- Witness for C6: at the concrete count 1500 the scale index is the floor
logarithm and is a valid suffix index. -/
theorem C6_pretty_byte_total_witness :
    size_log_1000 1500 = Nat.log 1000 1500 ∧
    Nat.log 1000 1500 < size_suffixes.length :=
  C6_pretty_byte_total.1 1500 (by norm_num)
    (by norm_num [size_suffixes, build_size_suffixes])

/-! Paired-chart layout geometry (lines 328-341 and 390-399). -/

/-- A `plot_view::bounds_t` rectangle in page units, with exact rational
coordinates standing for the C doubles (all modelled values are exactly
representable). -/
structure Bounds where
  x : ℚ
  y : ℚ
  width : ℚ
  height : ℚ
deriving DecidableEq, Repr

/-- Line 34: `address_histogram_width_divisor = 2.5`, used by BOTH pair
renderers. -/
def address_histogram_width_divisor : ℚ := 5 / 2

/-- Line 37. -/
def address_histogram_height : ℚ := 125

/-- Line 38. -/
def port_histogram_height : ℚ := 100

/-- Lines 328-340: geometry of the address pair chart.  Returns the left
bounds, the right bounds, and the cursor after the chart advance (line 340)
— the advance happens before the text-stat loop of lines 343-377 runs. -/
def addressPairChartLayout (surface_bounds : Bounds) (end_of_content : ℚ) :
    Bounds × Bounds × ℚ :=
  let width := surface_bounds.width / address_histogram_width_divisor
  let left_bounds : Bounds := ⟨0, end_of_content, width, address_histogram_height⟩
  let right_bounds : Bounds :=
    ⟨surface_bounds.width - width, end_of_content, width, address_histogram_height⟩
  (left_bounds, right_bounds,
   end_of_content + max left_bounds.height right_bounds.height)

/-- Lines 390-399: geometry of the port pair chart, same shape with the
port height constant; the cursor advance of line 399 precedes the text-stat
loop of lines 402-436. -/
def portPairChartLayout (surface_bounds : Bounds) (end_of_content : ℚ) :
    Bounds × Bounds × ℚ :=
  let width := surface_bounds.width / address_histogram_width_divisor
  let left_bounds : Bounds := ⟨0, end_of_content, width, port_histogram_height⟩
  let right_bounds : Bounds :=
    ⟨surface_bounds.width - width, end_of_content, width, port_histogram_height⟩
  (left_bounds, right_bounds,
   end_of_content + max left_bounds.height right_bounds.height)

/-- C7: in both pair renderers each side is `content_width / 2.5` wide, the
left chart starts at the left content edge `x = 0`, the right chart starts
flush right at `x = content_width - width`, both charts get the fixed
height of their type, and the cursor advances by the maximum of the two
chart heights before any text rows are emitted. -/
theorem C7_pair_chart_layout (sb : Bounds) (c : ℚ) :
    (addressPairChartLayout sb c).1 = ⟨0, c, sb.width / (5 / 2), 125⟩ ∧
    (addressPairChartLayout sb c).2.1 =
      ⟨sb.width - sb.width / (5 / 2), c, sb.width / (5 / 2), 125⟩ ∧
    (addressPairChartLayout sb c).2.2 =
      c + max (addressPairChartLayout sb c).1.height
            (addressPairChartLayout sb c).2.1.height ∧
    (addressPairChartLayout sb c).2.2 = c + 125 ∧
    (portPairChartLayout sb c).1 = ⟨0, c, sb.width / (5 / 2), 100⟩ ∧
    (portPairChartLayout sb c).2.1 =
      ⟨sb.width - sb.width / (5 / 2), c, sb.width / (5 / 2), 100⟩ ∧
    (portPairChartLayout sb c).2.2 =
      c + max (portPairChartLayout sb c).1.height
            (portPairChartLayout sb c).2.1.height ∧
    (portPairChartLayout sb c).2.2 = c + 100 := by
  refine ⟨rfl, rfl, rfl, ?_, rfl, rfl, rfl, ?_⟩ <;>
    simp [addressPairChartLayout, portPairChartLayout,
      address_histogram_height, port_histogram_height]

end OnePageReport
